import Mathlib

/-
Verification of the client/session/aggregation layer of the UiPath
Orchestrator MCP service (src/src/service.py, src/server.py).

The Python code is shallowly embedded: pure request-building and
response-processing code becomes Lean functions over explicit inputs,
network responses become parameters, exceptions become `Except`, and the
mutable class-level token slot and the module-level client cache become
explicitly threaded state.  Python truthiness on optional strings and
integers (None, "", and 0 are falsy) is modelled exactly where the source
relies on it.
-/

deriving instance DecidableEq for Except

/-- A string's character list is empty exactly when it is the empty string. -/
theorem string_data_nil {s : String} : s.data = [] ↔ s = "" :=
  ⟨fun h => by cases s with | mk d => simp at h; subst h; rfl, fun h => by subst h; rfl⟩

/-- Python string comparison, as used by `sorted`: code-point lexicographic
order on the character sequence. -/
def pyStrLe (a b : String) : Prop := a.data ≤ b.data

instance : DecidableRel pyStrLe := fun a b => inferInstanceAs (Decidable (a.data ≤ b.data))

instance : IsTotal String pyStrLe := ⟨fun a b => le_total a.data b.data⟩

instance : IsTrans String pyStrLe := ⟨fun _ _ _ => le_trans⟩

/-- Python `str.lower` over the ASCII range: the character-wise lower-case map. -/
def pyLower (s : String) : String := ⟨s.data.map Char.toLower⟩

/-- Python `sorted` on a list of strings. -/
def pySorted (xs : List String) : List String := List.insertionSort pyStrLe xs

/-- Python `needle in hay` substring containment on strings. -/
def pyContains (needle hay : String) : Bool :=
  hay.data.tails.any (fun t => needle.data.isPrefixOf t)

theorem pySorted_sorted (xs : List String) : List.Sorted pyStrLe (pySorted xs) :=
  List.sorted_insertionSort pyStrLe xs

theorem pySorted_perm (xs : List String) : (pySorted xs).Perm xs :=
  List.perm_insertionSort pyStrLe xs

theorem pySorted_mem (xs : List String) (s : String) : s ∈ pySorted xs ↔ s ∈ xs :=
  (pySorted_perm xs).mem_iff

theorem pySorted_nodup (xs : List String) (h : xs.Nodup) : (pySorted xs).Nodup :=
  (pySorted_perm xs).nodup_iff.mpr h

/-- The empty needle is a substring of every string (`"" in s` is True in Python). -/
theorem pyContains_empty (hay : String) : pyContains "" hay = true := by
  have : ("" : String).data = [] := rfl
  simp [pyContains, this, List.any_eq_true]
  exact ⟨hay.data, List.suffix_refl hay.data⟩

-- ---------------------------------------------------------------------------
-- OrchestratorClient request-building state (src/src/service.py)
-- ---------------------------------------------------------------------------

/-- The per-client fields read from configuration by the constructor
(service.py lines 50-68): base URL, account logical name, tenant name. -/
structure Session where
  base_url : String
  account : String
  tenant : String
deriving DecidableEq

/-- The header dictionary built by `get_headers`: the three fixed entries plus
the optional `X-UIPATH-OrganizationUnitId` entry (absent when
`account_level=True`). -/
structure Headers where
  authorization : String
  contentType : String
  tenantName : String
  orgUnitId : Option String
deriving DecidableEq

/-- `OrchestratorClient.get_headers` (service.py lines 105-130).  `token` is
the class-level `_access_token` slot.  The guard `if not _access_token`
raises when the slot is `None` or the empty string (Python truthiness); the
org-unit entry is `str(folder_id) if folder_id else self.account`, so a
`folder_id` of `None` *or `0`* falls back to the account logical name. -/
def get_headers (token : Option String) (sess : Session)
    (folderId : Option Int) (accountLevel : Bool) : Except String Headers :=
  match token with
  | none => .error "Client is not authenticated"
  | some t =>
    if t = "" then .error "Client is not authenticated"
    else .ok
      { authorization := "Bearer " ++ t
        contentType := "application/json"
        tenantName := sess.tenant
        orgUnitId :=
          if accountLevel then none
          else some (match folderId with
            | some f => if f = 0 then sess.account else toString f
            | none => sess.account) }

/-- The headers attached by `OrchestratorClient.get` (service.py line 144):
`get` always calls `get_headers(folder_id=folder_id)` with the default
`account_level=False`. -/
def get_request_headers (token : Option String) (sess : Session)
    (folderId : Option Int) : Except String Headers :=
  get_headers token sess folderId false

-- ---------------------------------------------------------------------------
-- OrchestratorClient.authenticate (service.py lines 76-97)
-- ---------------------------------------------------------------------------

/-- The parsed JSON body of a token-endpoint response; `access_token` is
`none` when the key is absent (in which case the Python subscript raises). -/
structure TokenBody where
  access_token : Option String
deriving DecidableEq

/-- Failures of one `authenticate` call: `raise_for_status` on a non-2xx
token-endpoint response, or a missing `access_token` key. -/
inductive AuthError
  | httpStatus (status : Nat)
  | missingAccessToken
deriving DecidableEq

/-- Outcome of one successful `authenticate` call: the returned token, the
class-level `_access_token` slot afterwards, and the number of
token-endpoint POST requests the call made. -/
structure AuthOutcome where
  token : String
  cache : Option String
  requests : Nat
deriving DecidableEq

/-- The no-cached-token path of `authenticate`: POST the client-credentials
request, `raise_for_status`, parse `access_token`, store it in the
class-level slot, return it.  `endpoint` is the POST's result. -/
def authFetch (endpoint : Except Nat TokenBody) : Except AuthError AuthOutcome :=
  match endpoint with
  | .error status => .error (.httpStatus status)
  | .ok body =>
    match body.access_token with
    | none => .error .missingAccessToken
    | some tok => .ok { token := tok, cache := some tok, requests := 1 }

/-- `OrchestratorClient.authenticate` (service.py lines 76-97).  `cached` is
the class-level `_access_token` slot on entry.  The guard
`if OrchestratorClient._access_token` treats an empty cached string as
absent (Python truthiness) and re-fetches. -/
def authenticate (cached : Option String) (endpoint : Except Nat TokenBody) :
    Except AuthError AuthOutcome :=
  match cached with
  | some t => if t = "" then authFetch endpoint else .ok { token := t, cache := some t, requests := 0 }
  | none => authFetch endpoint

/-- Two sequential `authenticate` calls against the same endpoint, threading
the class-level token slot between them: the two returned tokens and the
total number of token-endpoint requests. -/
def authenticateTwice (cached : Option String) (endpoint : Except Nat TokenBody) :
    Except AuthError (String × String × Nat) :=
  match authenticate cached endpoint with
  | .error e => .error e
  | .ok o1 =>
    match authenticate o1.cache endpoint with
    | .error e => .error e
    | .ok o2 => .ok (o1.token, o2.token, o1.requests + o2.requests)

-- ---------------------------------------------------------------------------
-- OrchestratorClient.list_libraries (service.py lines 302-324)
-- ---------------------------------------------------------------------------

/-- One record of the `odata/Libraries` response's `value` array; the source
only reads the `"Id"` key, which is `none` when absent. -/
structure LibRecord where
  Id : Option String
deriving DecidableEq

/-- The `odata/Libraries` response document: its `value` array (an absent key
yields `[]` via `data.get("value", [])`). -/
structure LibrariesDoc where
  value : List LibRecord
deriving DecidableEq

/-- `OrchestratorClient.list_libraries` (service.py lines 302-324).  The set
comprehension keeps each record's truthy `"Id"` (dropping `None` and the
empty string) and collapses duplicates; `if search:` skips filtering for a
`None` or empty search string, otherwise keeps names whose lower-cased form
contains the lower-cased search string; the set is returned sorted. -/
def list_libraries (doc : LibrariesDoc) (search : Option String) : List String :=
  let names := ((doc.value.filterMap (fun r => r.Id)).filter (fun s => s ≠ "")).dedup
  let filtered :=
    match search with
    | some q =>
      if q = "" then names
      else names.filter (fun n => pyContains (pyLower q) (pyLower n))
    | none => names
  pySorted filtered

-- ---------------------------------------------------------------------------
-- OrchestratorClient.list_library_versions (service.py lines 326-378)
-- ---------------------------------------------------------------------------

/-- The `"@type"` attribute of a service-index resource entry: a JSON string,
a JSON array of strings, or absent (`res.get("@type")` returning `None`). -/
inductive TypeTag
  | str (s : String)
  | strs (l : List String)
  | absent
deriving DecidableEq

/-- One entry of the service index's `resources` array: its `"@type"`
attribute and its `"@id"` attribute (`none` when the key is missing, in
which case the subscript `res["@id"]` raises a key error). -/
structure IndexResource where
  typeTag : TypeTag
  idAttr : Option String
deriving DecidableEq

/-- A NuGet v3 service-index document: its `resources` array (an absent key
yields `[]` via `index.get("resources", [])`). -/
structure ServiceIndex where
  resources : List IndexResource
deriving DecidableEq

/-- The flat-container versions document: its `versions` array, `none` when
the key is absent (`data.get("versions", [])` then yields `[]`). -/
structure VersionsDoc where
  versions : Option (List String)
deriving DecidableEq

/-- Failures of `list_library_versions`, one per raise site: unset
`LIBRARIES_FEED_ID`, non-2xx on the service index, no usable
`PackageBaseAddress/3.0.0` capability, missing `"@id"` key on the matching
entry, non-2xx on the versions fetch, empty or absent versions array. -/
inductive FeedError
  | feedIdNotSet
  | indexHttp (status : Nat)
  | noPackageBaseAddress
  | missingIdKey
  | versionsHttp (status : Nat)
  | noVersions (packageId : String)
deriving DecidableEq

/-- The capability test of the locate loop (service.py lines 355-359):
`t == "PackageBaseAddress/3.0.0" or (isinstance(t, list) and "PackageBaseAddress/3.0.0" in t)`. -/
def matchesPBA (t : TypeTag) : Bool :=
  match t with
  | .str s => s == "PackageBaseAddress/3.0.0"
  | .strs l => l.contains "PackageBaseAddress/3.0.0"
  | .absent => false

/-- The locate loop of service.py lines 354-361: the `"@id"` attribute of the
first resource whose type tag matches, `none` when no resource matches
(`base_addr` stays `None`). -/
def locateResource : List IndexResource → Option (Option String)
  | [] => none
  | r :: rest => if matchesPBA r.typeTag then some r.idAttr else locateResource rest

/-- Python `str.rstrip("/")`: drop trailing slash characters. -/
def rstripSlash (s : String) : String :=
  ⟨(s.data.reverse.dropWhile (fun c => c == '/')).reverse⟩

/-- The flat-container versions URL built at service.py lines 367-368:
`{base_addr.rstrip("/")}/{package_id.lower()}/index.json`. -/
def versionsUrl (baseAddr packageId : String) : String :=
  rstripSlash baseAddr ++ "/" ++ pyLower packageId ++ "/index.json"

/-- The tail of `list_library_versions` after the versions fetch
(service.py lines 370-378): `raise_for_status`, read `versions` with `[]`
default, raise on an empty list, otherwise return `sorted(versions)`. -/
def sortedVersionsOf (resp : Except Nat VersionsDoc) (packageId : String) :
    Except FeedError (List String) :=
  match resp with
  | .error status => .error (.versionsHttp status)
  | .ok vdoc =>
    match vdoc.versions with
    | none => .error (.noVersions packageId)
    | some vs => if vs = [] then .error (.noVersions packageId) else .ok (pySorted vs)

/-- `OrchestratorClient.list_library_versions` (service.py lines 326-378).
`feedId` is the `LIBRARIES_FEED_ID` environment value (`none` or `""` is
falsy and raises); `indexResp` is the result of the service-index GET;
`fetchVersions` gives the GET result at each candidate versions URL.  After
the locate loop, `if not base_addr:` raises the capability error both when
no entry matched and when the first matching entry's `"@id"` is the empty
string (Python truthiness). -/
def list_library_versions (feedId : Option String) (indexResp : Except Nat ServiceIndex)
    (fetchVersions : String → Except Nat VersionsDoc) (packageId : String) :
    Except FeedError (List String) :=
  match feedId with
  | none => .error .feedIdNotSet
  | some fid =>
    if fid = "" then .error .feedIdNotSet
    else match indexResp with
    | .error status => .error (.indexHttp status)
    | .ok index =>
      match locateResource index.resources with
      | none => .error .noPackageBaseAddress
      | some none => .error .missingIdKey
      | some (some baseAddr) =>
        if baseAddr = "" then .error .noPackageBaseAddress
        else sortedVersionsOf (fetchVersions (versionsUrl baseAddr packageId)) packageId

/-- The ordering the specification describes for version listing, written
from the spec's words for comparison with the code's behavior: ascending
order over the version strings after normalization to lower case. -/
def lowerLe (a b : String) : Prop := pyStrLe (pyLower a) (pyLower b)

instance : DecidableRel lowerLe := fun a b =>
  inferInstanceAs (Decidable ((pyLower a).data ≤ (pyLower b).data))

/-- The version list the spec's words describe: the feed's versions sorted
ascending by their lower-cased form. -/
def specLowerSorted (vs : List String) : List String := List.insertionSort lowerLe vs

-- ---------------------------------------------------------------------------
-- Aggregated resource fetch (ResourceAggregator / get_resources)
-- ---------------------------------------------------------------------------

/-- The outcome one per-kind sub-fetch settles with, as seen by the
aggregator: the request's parsed item records, an HTTP error, or a network
error.  Raw records are carried as opaque string blobs. -/
inductive FetchOutcome
  | ok (records : List String)
  | httpError (status : Nat) (body : String)
  | netError (message : String)
deriving DecidableEq

/-- One entry of the aggregated response: exactly the item list on success,
or exactly an error record on failure — never both. -/
inductive ResourceResult
  | items (records : List String)
  | failure (message : String)
deriving DecidableEq

/-- Modelled from the spec: how one fetch outcome becomes one aggregated
entry — a success becomes its item list, any failure becomes an error
record (spec section 4.4). -/
def toResourceResult : FetchOutcome → ResourceResult
  | .ok records => .items records
  | .httpError status body => .failure ("HTTP " ++ toString status ++ ": " ++ body)
  | .netError message => .failure message

/-- Modelled from the spec: `get_resources` — the aggregated fetch invoked by
src/src/test.py's `test_get_resources` but present only in a revision not
under src.  Per spec section 4.4 it independently invokes the matching
accessor for each requested kind in request order, capturing a failure as
the error entry for that kind only; `fetch` gives each kind's sub-fetch
outcome for the folder. -/
def get_resources (kinds : List String) (folderId : Int)
    (fetch : String → Int → FetchOutcome) : List (String × ResourceResult) :=
  kinds.map (fun k => (k, toResourceResult (fetch k folderId)))

-- ---------------------------------------------------------------------------
-- Client registry (src/server.py lines 18-33)
-- ---------------------------------------------------------------------------

/-- Modelled from the spec: the validated multi-account configuration object
(`CONFIG`) imported by server.py; its loader is not under src.  `accounts`
maps each account logical name to its configured tenant names
(spec sections 2 and 3). -/
structure ConfigStore where
  accounts : List (String × List String)
deriving DecidableEq

/-- Configuration rejection: unknown account, or unknown tenant under a
known account. -/
inductive ConfigError
  | unknownAccount (account : String)
  | unknownTenant (account tenant : String)
deriving DecidableEq

/-- One OrchestratorClient instance.  `instanceId` is the constructed
object's identity: two calls return the identity-same Python object
exactly when their `instanceId`s are equal. -/
structure Client where
  account : String
  tenant : String
  instanceId : Nat
deriving DecidableEq

/-- Modelled from the spec: the multi-account `OrchestratorClient`
constructor called by server.py and the tests (the revision of service.py
under src has only the single-account form).  Per spec section 4.2 it
validates the account against the configuration and the tenant against that
account's tenants, failing closed with a configuration error; it performs
no network call. -/
def mkClient (cfg : ConfigStore) (nextId : Nat) (account tenant : String) :
    Except ConfigError Client :=
  match cfg.accounts.lookup account with
  | none => .error (.unknownAccount account)
  | some tenants =>
    if tenant ∈ tenants then .ok { account := account, tenant := tenant, instanceId := nextId }
    else .error (.unknownTenant account tenant)

/-- The server-level registry state: the module-level `_CLIENTS` cache
(keyed by the `f"{account}/{tenant}"` string), a fresh-instance counter,
and the number of `client.authenticate()` calls made so far (the token
endpoint is only ever contacted from inside `authenticate`). -/
structure Registry where
  cache : List (String × Client)
  nextId : Nat
  authCalls : Nat
deriving DecidableEq

/-- `get_client` (server.py lines 21-33).  The cache key is
`account ++ "/" ++ tenant`; a cached client is returned as-is with no
validation and no network traffic; otherwise the client is constructed,
`authenticate()` is awaited once, and the client is inserted under the key. -/
def get_client (cfg : ConfigStore) (st : Registry) (account tenant : String) :
    Except ConfigError Client × Registry :=
  let key := account ++ "/" ++ tenant
  match st.cache.lookup key with
  | some c => (.ok c, st)
  | none =>
    match mkClient cfg st.nextId account tenant with
    | .error e => (.error e, st)
    | .ok c =>
      (.ok c, { cache := (key, c) :: st.cache, nextId := st.nextId + 1,
                authCalls := st.authCalls + 1 })

-- ---------------------------------------------------------------------------
-- Library download (server.py lines 175-200; resolver per spec section 4.5)
-- ---------------------------------------------------------------------------

/-- A local file system, as a finite map from path to file bytes. -/
structure FileSystem where
  files : List (String × List Nat)
deriving DecidableEq

/-- The bytes stored at a path, `none` when no file exists there. -/
def FileSystem.read (fs : FileSystem) (path : String) : Option (List Nat) :=
  fs.files.lookup path

/-- Replace (or create) the file at a path with the given bytes. -/
def FileSystem.write (fs : FileSystem) (path : String) (contents : List Nat) : FileSystem :=
  ⟨(path, contents) :: fs.files.filter (fun e => !(e.1 == path))⟩

/-- The artifact GET's outcome: the full response body, or a non-2xx status. -/
inductive ArtifactResponse
  | body (bytes : List Nat)
  | httpError (status : Nat)
deriving DecidableEq

inductive DownloadError
  | http (status : Nat)
  | writeFailure
deriving DecidableEq

/-- The record returned for a completed download (spec section 3):
`byte_size` is the recorded size of the persisted artifact. -/
structure DownloadedArtifact where
  package_id : String
  version : String
  local_path : String
  byte_size : Nat
deriving DecidableEq

/-- The final artifact path `{download_dir}/{package_id}.{version}.nupkg`. -/
def downloadPath (downloadDir packageId version : String) : String :=
  downloadDir ++ "/" ++ packageId ++ "." ++ version ++ ".nupkg"

/-- Modelled from the spec: `download_library_version` — invoked by the
server.py tool (lines 175-200) and by src/src/test.py but present only in a
revision not under src.  Per spec section 4.5 it performs the artifact GET,
persists the full body at the final path, and fails with a download error
on a non-2xx response or a local write failure, leaving no partially
written file at the final path (the file system there is unchanged on
failure).  `writeOk` says whether the local write succeeds. -/
def download_library_version (fs : FileSystem) (downloadDir packageId version : String)
    (resp : ArtifactResponse) (writeOk : Bool) :
    Except DownloadError DownloadedArtifact × FileSystem :=
  let path := downloadPath downloadDir packageId version
  match resp with
  | .httpError status => (.error (.http status), fs)
  | .body bytes =>
    if writeOk then
      (.ok { package_id := packageId, version := version, local_path := path,
             byte_size := bytes.length },
       fs.write path bytes)
    else (.error .writeFailure, fs)

-- ---------------------------------------------------------------------------
-- Concurrent token acquisition (service.py lines 76-97 under the async
-- scheduling model of spec section 5)
-- ---------------------------------------------------------------------------

/-- Program counter of one coroutine running `authenticate`: before the
cache check, suspended at the awaited token POST, or returned.  The code
has no suspension point between the cache check and the POST. -/
inductive CoPhase
  | atStart
  | awaitingToken
  | finished
deriving DecidableEq

/-- Shared state of two concurrent `authenticate` calls for the same
account: the class-level `_access_token` slot, each coroutine's phase, the
total number of token-endpoint requests issued, and the number currently in
flight. -/
structure ConcurrentAuth where
  token : Option String
  phase1 : CoPhase
  phase2 : CoPhase
  issued : Nat
  inFlight : Nat
deriving DecidableEq

inductive WhichCo
  | co1
  | co2
deriving DecidableEq

def phaseOf (s : ConcurrentAuth) : WhichCo → CoPhase
  | .co1 => s.phase1
  | .co2 => s.phase2

def withPhase (s : ConcurrentAuth) (w : WhichCo) (p : CoPhase) : ConcurrentAuth :=
  match w with
  | .co1 => { s with phase1 := p }
  | .co2 => { s with phase2 := p }

/-- One atomic step of coroutine `w`, exactly the code of `authenticate`
(service.py lines 76-97): from the start, a truthy cached token returns
immediately with no request; otherwise the coroutine issues its own POST to
the token endpoint and suspends at the await; on resumption it stores the
response's token in the shared class-level slot and returns.  `tok` is the
endpoint's `access_token` value. -/
def authStep (tok : String) (s : ConcurrentAuth) (w : WhichCo) : ConcurrentAuth :=
  match phaseOf s w with
  | .atStart =>
    match s.token with
    | some t =>
      if t = "" then
        withPhase { s with issued := s.issued + 1, inFlight := s.inFlight + 1 } w .awaitingToken
      else withPhase s w .finished
    | none =>
      withPhase { s with issued := s.issued + 1, inFlight := s.inFlight + 1 } w .awaitingToken
  | .awaitingToken =>
    withPhase { s with token := some tok, inFlight := s.inFlight - 1 } w .finished
  | .finished => s

/-- Run a cooperative schedule: each entry advances the named coroutine by
one atomic segment. -/
def runSchedule (tok : String) (s : ConcurrentAuth) : List WhichCo → ConcurrentAuth
  | [] => s
  | w :: rest => runSchedule tok (authStep tok s w) rest

/-- Both coroutines about to call `authenticate`, nothing cached, no
requests yet. -/
def initConcurrentAuth : ConcurrentAuth :=
  { token := none, phase1 := .atStart, phase2 := .atStart, issued := 0, inFlight := 0 }

-- ---------------------------------------------------------------------------
-- Claim theorems
-- ---------------------------------------------------------------------------

/-- C1: for every ordered sequence of requested resource kinds and every
folder id, the aggregated fetch returns exactly one entry per requested
kind, in request order; each entry is computed from that kind's own fetch
outcome alone (so a failing kind is recorded as an error entry for that
kind only and never prevents the remaining kinds from being fetched); and
a kind that succeeds with zero items (`items []`) is a different value from
every failed kind (`failure _`). -/
theorem C1_aggregated_fetch (kinds : List String) (folderId : Int)
    (fetch : String → Int → FetchOutcome) :
    ((get_resources kinds folderId fetch).map Prod.fst = kinds) ∧
    (∀ i : Nat, (get_resources kinds folderId fetch)[i]? =
      kinds[i]?.map (fun k => (k, toResourceResult (fetch k folderId)))) ∧
    (∀ records message, ResourceResult.items records ≠ ResourceResult.failure message) := by
  refine ⟨?_, ?_, ?_⟩
  · simp [get_resources, Function.comp_def]
  · intro i
    simp [get_resources, List.getElem?_map]
  · intro records message h
    cases h

/-- C2 (amended): for every call to `get_headers` with a non-empty token:
the produced headers always carry `Authorization: Bearer <token>`,
`Content-Type: application/json` and the session's tenant name; and in the
`account_level=False` mode used by `get`, a provided *non-zero* folder id
sets the org-unit header to its decimal string, while an absent — or zero,
by Python truthiness — folder id sets it to the account's logical name. -/
theorem C2_header_rule (t : String) (sess : Session) (folderId : Option Int)
    (accountLevel : Bool) (ht : t ≠ "") :
    ∃ h hGet : Headers,
      get_headers (some t) sess folderId accountLevel = .ok h ∧
      h.authorization = "Bearer " ++ t ∧
      h.contentType = "application/json" ∧
      h.tenantName = sess.tenant ∧
      get_headers (some t) sess folderId false = .ok hGet ∧
      hGet.authorization = "Bearer " ++ t ∧
      hGet.contentType = "application/json" ∧
      hGet.tenantName = sess.tenant ∧
      (∀ f : Int, folderId = some f → f ≠ 0 → hGet.orgUnitId = some (toString f)) ∧
      ((folderId = none ∨ folderId = some 0) → hGet.orgUnitId = some sess.account) := by
  simp only [get_headers, if_neg ht]
  refine ⟨_, _, rfl, rfl, rfl, rfl, rfl, rfl, rfl, rfl, ?_, ?_⟩
  · intro f hf hf0
    subst hf
    simp [hf0]
  · intro hcase
    rcases hcase with h0 | h0 <;> subst h0 <;> simp

/-- C2 witness: a concrete call with folder id 77 yields the org-unit
header `"77"` together with the three fixed headers. -/
theorem C2_header_rule_witness :
    ∃ h hGet : Headers,
      get_headers (some "tok") ⟨"https://cloud.uipath.com/", "acme", "DEV"⟩ (some 77) false = .ok h ∧
      h.authorization = "Bearer " ++ "tok" ∧
      h.contentType = "application/json" ∧
      h.tenantName = Session.tenant ⟨"https://cloud.uipath.com/", "acme", "DEV"⟩ ∧
      get_headers (some "tok") ⟨"https://cloud.uipath.com/", "acme", "DEV"⟩ (some 77) false = .ok hGet ∧
      hGet.authorization = "Bearer " ++ "tok" ∧
      hGet.contentType = "application/json" ∧
      hGet.tenantName = Session.tenant ⟨"https://cloud.uipath.com/", "acme", "DEV"⟩ ∧
      (∀ f : Int, (some 77 : Option Int) = some f → f ≠ 0 → hGet.orgUnitId = some (toString f)) ∧
      (((some 77 : Option Int) = none ∨ (some 77 : Option Int) = some 0) →
        hGet.orgUnitId = some (Session.account ⟨"https://cloud.uipath.com/", "acme", "DEV"⟩)) :=
  C2_header_rule "tok" ⟨"https://cloud.uipath.com/", "acme", "DEV"⟩ (some 77) false (by decide)

/-- C2 counterexample: the claim says a provided folder id always becomes
the org-unit header's decimal string, but a provided folder id of `0` is
falsy in Python, so the header falls back to the account's logical name
`"acme"` and not `"0"`. -/
theorem C2_counterexample :
    get_headers (some "tok") ⟨"https://cloud.uipath.com/", "acme", "DEV"⟩ (some 0) false =
      .ok { authorization := "Bearer tok", contentType := "application/json",
            tenantName := "DEV", orgUnitId := some "acme" } ∧
    (some ("acme" : String) ≠ some (toString (0 : Int))) := by
  decide

/-- C3 (amended): starting from an empty class-level token slot, against a
token endpoint whose `access_token` is non-empty, two sequential
`authenticate` calls return bit-identical tokens and cause exactly one
token-endpoint request in total; a cached non-empty token is returned
with zero network requests; and the fresh-fetch path stores the parsed
`access_token` in the slot it returns from, making exactly one request. -/
theorem C3_token_reuse (endpoint : Except Nat TokenBody) (tok : String)
    (hok : endpoint = .ok { access_token := some tok }) (hne : tok ≠ "") :
    authenticateTwice none endpoint = .ok (tok, tok, 1) ∧
    (∀ t : String, t ≠ "" → authenticate (some t) endpoint =
      .ok { token := t, cache := some t, requests := 0 }) ∧
    (∀ o : AuthOutcome, authenticate none endpoint = .ok o →
      o.cache = some o.token ∧ o.requests = 1) := by
  subst hok
  refine ⟨?_, ?_, ?_⟩
  · simp [authenticateTwice, authenticate, authFetch, hne]
  · intro t ht
    simp [authenticate, ht]
  · intro o ho
    simp [authenticate, authFetch] at ho
    simp [← ho]

/-- C3 witness: a concrete endpoint returning the token `"jwt"`. -/
theorem C3_token_reuse_witness :
    authenticateTwice none (.ok { access_token := some "jwt" }) = .ok ("jwt", "jwt", 1) ∧
    (∀ t : String, t ≠ "" → authenticate (some t) (.ok { access_token := some "jwt" }) =
      .ok { token := t, cache := some t, requests := 0 }) ∧
    (∀ o : AuthOutcome, authenticate none (.ok { access_token := some "jwt" }) = .ok o →
      o.cache = some o.token ∧ o.requests = 1) :=
  C3_token_reuse (.ok { access_token := some "jwt" }) "jwt" rfl (by decide)

/-- C3 counterexample: when the endpoint's `access_token` is the empty
string, the cached empty token is treated as absent by the truthiness
guard, so two sequential calls both POST to the token endpoint — two
requests, not exactly one. -/
theorem C3_counterexample :
    authenticateTwice none (.ok { access_token := some "" }) = .ok ("", "", 2) ∧
    (2 : Nat) ≠ 1 := by
  decide

/-- C4 (amended): provided the registry cache has no entry under the
combined key `account ++ "/" ++ tenant` (in particular in a fresh registry,
or whenever account and tenant names contain no slash), requesting a client
for an account absent from the configuration, or a tenant not configured
under that account, returns a configuration error, leaves the registry —
including its authentication counter — unchanged, and so performs zero
network calls and constructs no session. -/
theorem C4_config_rejection (cfg : ConfigStore) (st : Registry) (account tenant : String)
    (hkey : st.cache.lookup (account ++ "/" ++ tenant) = none)
    (hbad : cfg.accounts.lookup account = none ∨
      ∃ ts, cfg.accounts.lookup account = some ts ∧ tenant ∉ ts) :
    (∃ e, (get_client cfg st account tenant).1 = .error e) ∧
    (get_client cfg st account tenant).2 = st := by
  rcases hbad with h | ⟨ts, hts, htn⟩
  · have hmk : mkClient cfg st.nextId account tenant = .error (.unknownAccount account) := by
      simp [mkClient, h]
    exact ⟨⟨.unknownAccount account, by simp [get_client, hkey, hmk]⟩,
      by simp [get_client, hkey, hmk]⟩
  · have hmk : mkClient cfg st.nextId account tenant = .error (.unknownTenant account tenant) := by
      simp [mkClient, hts, htn]
    exact ⟨⟨.unknownTenant account tenant, by simp [get_client, hkey, hmk]⟩,
      by simp [get_client, hkey, hmk]⟩

/-- C4 witness: with only `acme → [DEV]` configured and a fresh registry,
`get_client "nope" "DEV"` errors and changes nothing. -/
theorem C4_config_rejection_witness :
    (∃ e, (get_client ⟨[("acme", ["DEV"])]⟩ ⟨[], 0, 0⟩ "nope" "DEV").1 = .error e) ∧
    (get_client ⟨[("acme", ["DEV"])]⟩ ⟨[], 0, 0⟩ "nope" "DEV").2 = ⟨[], 0, 0⟩ :=
  C4_config_rejection ⟨[("acme", ["DEV"])]⟩ ⟨[], 0, 0⟩ "nope" "DEV" (by decide)
    (Or.inl (by decide))

/-- C4 counterexample: the cache key is the bare concatenation
`f"{account}/{tenant}"`, so after a legitimate `get_client("a/b", "c")` the
cached key `"a/b/c"` collides with the pair `("a", "b/c")`: requesting the
unknown account `"a"` then returns the cached client with no configuration
error at all. -/
theorem C4_counterexample :
    (ConfigStore.accounts ⟨[("a/b", ["c"])]⟩).lookup "a" = none ∧
    (get_client ⟨[("a/b", ["c"])]⟩
      (get_client ⟨[("a/b", ["c"])]⟩ ⟨[], 0, 0⟩ "a/b" "c").2 "a" "b/c").1 =
      .ok ⟨"a/b", "c", 0⟩ := by
  decide

/-- C5: for a configured (account, tenant) pair not yet cached, the first
`get_client` call constructs the client, authenticates exactly once and
caches it; the second call with the same arguments returns the
identity-same client instance and leaves the registry — including the
authentication-call counter — untouched, so exactly one authentication
occurs across both calls. -/
theorem C5_registry_idempotent (cfg : ConfigStore) (st : Registry) (account tenant : String)
    (ts : List String) (hacct : cfg.accounts.lookup account = some ts) (htn : tenant ∈ ts)
    (hkey : st.cache.lookup (account ++ "/" ++ tenant) = none) :
    ∃ (c : Client) (st1 : Registry),
      get_client cfg st account tenant = (.ok c, st1) ∧
      get_client cfg st1 account tenant = (.ok c, st1) ∧
      st1.authCalls = st.authCalls + 1 := by
  have hmk : mkClient cfg st.nextId account tenant = .ok ⟨account, tenant, st.nextId⟩ := by
    simp [mkClient, hacct, htn]
  refine ⟨⟨account, tenant, st.nextId⟩,
    { cache := (account ++ "/" ++ tenant, ⟨account, tenant, st.nextId⟩) :: st.cache,
      nextId := st.nextId + 1, authCalls := st.authCalls + 1 }, ?_, ?_, rfl⟩
  · simp [get_client, hkey, hmk]
  · simp [get_client, List.lookup]

/-- C5 witness: concrete configuration `acme → [DEV]`, fresh registry. -/
theorem C5_registry_idempotent_witness :
    ∃ (c : Client) (st1 : Registry),
      get_client ⟨[("acme", ["DEV"])]⟩ ⟨[], 0, 0⟩ "acme" "DEV" = (.ok c, st1) ∧
      get_client ⟨[("acme", ["DEV"])]⟩ st1 "acme" "DEV" = (.ok c, st1) ∧
      st1.authCalls = Registry.authCalls ⟨[], 0, 0⟩ + 1 :=
  C5_registry_idempotent ⟨[("acme", ["DEV"])]⟩ ⟨[], 0, 0⟩ "acme" "DEV" ["DEV"]
    (by decide) (by decide) (by decide)

/-- The locate loop finds no capability exactly when no resource entry's
type tag matches `PackageBaseAddress/3.0.0`. -/
theorem locateResource_none_iff (rs : List IndexResource) :
    locateResource rs = none ↔ ∀ r ∈ rs, matchesPBA r.typeTag = false := by
  induction rs with
  | nil => simp [locateResource]
  | cons r rest ih =>
    cases hm : matchesPBA r.typeTag with
    | true => simp [locateResource, hm]
    | false => simp [locateResource, hm, ih]

/-- `sortedVersionsOf` never raises the capability error: its only failures
are the versions-fetch HTTP error and the no-versions error. -/
theorem sortedVersionsOf_ne_noPBA (resp : Except Nat VersionsDoc) (p : String) :
    sortedVersionsOf resp p ≠ .error .noPackageBaseAddress := by
  unfold sortedVersionsOf
  cases resp with
  | error s => simp
  | ok vdoc =>
    cases h : vdoc.versions with
    | none => simp [h]
    | some vs =>
      by_cases hvs : vs = [] <;> simp [h, hvs]

/-- C7 (amended): with a truthy feed id and a reachable service index,
`list_library_versions` fails with the capability-not-advertised feed error
if and only if either no entry of the index's resources has an `@type`
equal to — or a multi-valued list containing — `PackageBaseAddress/3.0.0`,
or the first matching entry's `@id` is the empty string (Python truthiness
in `if not base_addr`; a matching entry whose `@id` key is absent raises a
key error instead).  When the first matching entry's `@id` is non-empty it
is used as the package base address for the versions fetch, and an empty or
absent versions array then yields the no-versions feed error. -/
theorem C7_capability_rule (feedId : Option String) (idx : ServiceIndex)
    (fetchVersions : String → Except Nat VersionsDoc) (packageId : String)
    (hfid : ∃ fid, feedId = some fid ∧ fid ≠ "") :
    (list_library_versions feedId (.ok idx) fetchVersions packageId =
        .error .noPackageBaseAddress ↔
      (∀ r ∈ idx.resources, matchesPBA r.typeTag = false) ∨
        locateResource idx.resources = some (some "")) ∧
    (∀ baseAddr : String, locateResource idx.resources = some (some baseAddr) →
      baseAddr ≠ "" →
      list_library_versions feedId (.ok idx) fetchVersions packageId =
        sortedVersionsOf (fetchVersions (versionsUrl baseAddr packageId)) packageId) ∧
    (∀ vdoc : VersionsDoc, vdoc.versions = none ∨ vdoc.versions = some [] →
      sortedVersionsOf (.ok vdoc) packageId = .error (.noVersions packageId)) := by
  obtain ⟨fid, rfl, hfne⟩ := hfid
  refine ⟨?_, ?_, ?_⟩
  · rw [← locateResource_none_iff]
    cases hloc : locateResource idx.resources with
    | none => simp [list_library_versions, hfne, hloc]
    | some idAttr =>
      cases idAttr with
      | none => simp [list_library_versions, hfne, hloc]
      | some baseAddr =>
        by_cases hb : baseAddr = ""
        · subst hb
          simp [list_library_versions, hfne, hloc]
        · simp [list_library_versions, hfne, hloc, hb,
            sortedVersionsOf_ne_noPBA (fetchVersions (versionsUrl baseAddr packageId)) packageId]
  · intro baseAddr hloc hb
    simp [list_library_versions, hfne, hloc, hb]
  · intro vdoc hv
    rcases hv with h | h <;> simp [sortedVersionsOf, h]

/-- C7 witness: a concrete index advertising the capability under a
multi-valued type tag, with a non-empty `@id` and a feed returning an
empty versions array. -/
theorem C7_capability_rule_witness :
    (list_library_versions (some "feed-1")
        (.ok ⟨[⟨.strs ["SearchQueryService", "PackageBaseAddress/3.0.0"], some "https://feed/base/"⟩]⟩)
        (fun _ => .ok ⟨some []⟩) "My.Lib" = .error .noPackageBaseAddress ↔
      (∀ r ∈ ServiceIndex.resources
          ⟨[⟨.strs ["SearchQueryService", "PackageBaseAddress/3.0.0"], some "https://feed/base/"⟩]⟩,
        matchesPBA r.typeTag = false) ∨
        locateResource (ServiceIndex.resources
          ⟨[⟨.strs ["SearchQueryService", "PackageBaseAddress/3.0.0"], some "https://feed/base/"⟩]⟩) =
          some (some "")) ∧
    (∀ baseAddr : String,
      locateResource (ServiceIndex.resources
        ⟨[⟨.strs ["SearchQueryService", "PackageBaseAddress/3.0.0"], some "https://feed/base/"⟩]⟩) =
        some (some baseAddr) →
      baseAddr ≠ "" →
      list_library_versions (some "feed-1")
        (.ok ⟨[⟨.strs ["SearchQueryService", "PackageBaseAddress/3.0.0"], some "https://feed/base/"⟩]⟩)
        (fun _ => .ok ⟨some []⟩) "My.Lib" =
        sortedVersionsOf ((fun _ => Except.ok (VersionsDoc.mk (some []))) (versionsUrl baseAddr "My.Lib")) "My.Lib") ∧
    (∀ vdoc : VersionsDoc, vdoc.versions = none ∨ vdoc.versions = some [] →
      sortedVersionsOf (.ok vdoc) "My.Lib" = .error (.noVersions "My.Lib")) :=
  C7_capability_rule (some "feed-1")
    ⟨[⟨.strs ["SearchQueryService", "PackageBaseAddress/3.0.0"], some "https://feed/base/"⟩]⟩
    (fun _ => .ok ⟨some []⟩) "My.Lib" ⟨"feed-1", rfl, by decide⟩

/-- C7 counterexample: an index entry whose `@type` matches but whose `@id`
is the empty string — a matching entry exists, yet the code still fails
with the capability-not-advertised error, breaking the claimed
if-and-only-if. -/
theorem C7_counterexample :
    matchesPBA (TypeTag.str "PackageBaseAddress/3.0.0") = true ∧
    list_library_versions (some "feed")
      (.ok ⟨[⟨.str "PackageBaseAddress/3.0.0", some ""⟩]⟩)
      (fun _ => .ok ⟨some ["1.0.0"]⟩) "pkg" = .error .noPackageBaseAddress := by
  decide

/-- C6 (amended): for every feed response with a non-empty versions array,
`list_library_versions` returns a permutation of that array, deterministic
because the function is pure, in ascending code-point lexicographic order
over the *raw* version strings — `sorted(versions)` applies no lower-case
normalization to the versions (only the package id is lower-cased in the
URL). -/
theorem C6_version_order (feedId : Option String) (idx : ServiceIndex)
    (fetchVersions : String → Except Nat VersionsDoc) (packageId baseAddr : String)
    (vs : List String)
    (hfid : ∃ fid, feedId = some fid ∧ fid ≠ "")
    (hloc : locateResource idx.resources = some (some baseAddr)) (hb : baseAddr ≠ "")
    (hv : fetchVersions (versionsUrl baseAddr packageId) = .ok ⟨some vs⟩) (hne : vs ≠ []) :
    list_library_versions feedId (.ok idx) fetchVersions packageId = .ok (pySorted vs) ∧
    (pySorted vs).Perm vs ∧
    List.Sorted pyStrLe (pySorted vs) := by
  obtain ⟨fid, rfl, hfne⟩ := hfid
  refine ⟨?_, pySorted_perm vs, pySorted_sorted vs⟩
  simp [list_library_versions, hfne, hloc, hb, sortedVersionsOf, hv, hne]

/-- C6 witness: the spec's own example `["1.0.5","1.0.10","1.0.2"]`, served
from a concrete index. -/
theorem C6_version_order_witness :
    list_library_versions (some "feed-1")
      (.ok ⟨[⟨.str "PackageBaseAddress/3.0.0", some "https://feed/base/"⟩]⟩)
      (fun _ => .ok ⟨some ["1.0.5", "1.0.10", "1.0.2"]⟩) "My.Lib" =
      .ok (pySorted ["1.0.5", "1.0.10", "1.0.2"]) ∧
    (pySorted ["1.0.5", "1.0.10", "1.0.2"]).Perm ["1.0.5", "1.0.10", "1.0.2"] ∧
    List.Sorted pyStrLe (pySorted ["1.0.5", "1.0.10", "1.0.2"]) :=
  C6_version_order (some "feed-1")
    ⟨[⟨.str "PackageBaseAddress/3.0.0", some "https://feed/base/"⟩]⟩
    (fun _ => .ok ⟨some ["1.0.5", "1.0.10", "1.0.2"]⟩) "My.Lib" "https://feed/base/"
    ["1.0.5", "1.0.10", "1.0.2"] ⟨"feed-1", rfl, by decide⟩ (by decide) (by decide) rfl
    (by decide)

/-- C6 counterexample: with versions `["a", "B"]` the code returns
`["B", "a"]` (raw code-point order), but ascending order after lower-case
normalization — the order the claim states — is `["a", "B"]`. -/
theorem C6_counterexample :
    list_library_versions (some "feed")
      (.ok ⟨[⟨.str "PackageBaseAddress/3.0.0", some "https://feed/"⟩]⟩)
      (fun _ => .ok ⟨some ["a", "B"]⟩) "pkg" = .ok ["B", "a"] ∧
    specLowerSorted ["a", "B"] = ["a", "B"] ∧
    (["B", "a"] : List String) ≠ ["a", "B"] := by
  decide

/-- Writing a file then reading the same path gives back exactly the
written bytes. -/
theorem FileSystem.read_write (f : FileSystem) (p : String) (c : List Nat) :
    (f.write p c).read p = some c := by
  simp [FileSystem.read, FileSystem.write, List.lookup]

/-- C8: a successful download persists the full artifact body at
`{download_dir}/{package_id}.{version}.nupkg` and records a `byte_size`
equal to the size of the file actually persisted; a non-2xx response or a
local write failure yields a download error; and on every failure the file
system at the final path is unchanged — no partially written file is left
there. -/
theorem C8_download_integrity (fs : FileSystem) (downloadDir packageId version : String)
    (resp : ArtifactResponse) (writeOk : Bool) :
    (∀ bytes : List Nat, resp = .body bytes → writeOk = true →
      ∃ (a : DownloadedArtifact) (fs2 : FileSystem),
        download_library_version fs downloadDir packageId version resp writeOk = (.ok a, fs2) ∧
        a.local_path = downloadPath downloadDir packageId version ∧
        fs2.read a.local_path = some bytes ∧
        a.byte_size = bytes.length) ∧
    (∀ status : Nat, resp = .httpError status →
      download_library_version fs downloadDir packageId version resp writeOk =
        (.error (.http status), fs)) ∧
    (∀ bytes : List Nat, resp = .body bytes → writeOk = false →
      download_library_version fs downloadDir packageId version resp writeOk =
        (.error .writeFailure, fs)) ∧
    (∀ (e : DownloadError) (fs2 : FileSystem),
      download_library_version fs downloadDir packageId version resp writeOk = (.error e, fs2) →
      fs2.read (downloadPath downloadDir packageId version) =
        fs.read (downloadPath downloadDir packageId version)) := by
  refine ⟨?_, ?_, ?_, ?_⟩
  · rintro bytes rfl rfl
    exact ⟨_, _, rfl, rfl, FileSystem.read_write fs _ bytes, rfl⟩
  · rintro status rfl
    rfl
  · rintro bytes rfl rfl
    rfl
  · intro e fs2 h
    cases resp with
    | httpError status =>
      simp [download_library_version] at h
      rw [← h.2]
    | body bytes =>
      cases writeOk with
      | true => simp [download_library_version] at h
      | false =>
        simp [download_library_version] at h
        rw [← h.2]

/-- C8 witness: downloading a three-byte artifact onto an empty file
system. -/
theorem C8_download_integrity_witness :
    ∃ (a : DownloadedArtifact) (fs2 : FileSystem),
      download_library_version ⟨[]⟩ "downloads" "My.Lib" "1.0.5" (.body [7, 8, 9]) true =
        (.ok a, fs2) ∧
      a.local_path = downloadPath "downloads" "My.Lib" "1.0.5" ∧
      fs2.read a.local_path = some [7, 8, 9] ∧
      a.byte_size = [7, 8, 9].length :=
  (C8_download_integrity ⟨[]⟩ "downloads" "My.Lib" "1.0.5" (.body [7, 8, 9]) true).1
    [7, 8, 9] rfl rfl

/-- C9: token acquisition is not single-flight.  With an empty class-level
token slot, the schedule that runs both coroutines' pre-await segment
before either token response arrives ends with *two* token-endpoint
requests simultaneously in flight, and completing that schedule has issued
two requests in total — the second caller neither waits for nor reuses the
first caller's in-flight request. -/
theorem C9_not_single_flight :
    (runSchedule "tok" initConcurrentAuth [.co1, .co2]).inFlight = 2 ∧
    (runSchedule "tok" initConcurrentAuth [.co1, .co2, .co1, .co2]).issued = 2 ∧
    phaseOf (runSchedule "tok" initConcurrentAuth [.co1, .co2, .co1, .co2]) .co1 = .finished ∧
    phaseOf (runSchedule "tok" initConcurrentAuth [.co1, .co2, .co1, .co2]) .co2 = .finished := by
  decide

/-- `str.lower` of the empty string is the empty string. -/
theorem pyLower_empty : pyLower "" = "" := rfl

/-- C10: `list_libraries` returns a sorted, duplicate-free list containing
exactly the truthy `"Id"` values of the response's `value` records (missing
or empty ids dropped, duplicates collapsed) that — when a search string is
supplied — contain the search string case-insensitively. -/
theorem C10_list_libraries_spec (doc : LibrariesDoc) (search : Option String) :
    List.Sorted pyStrLe (list_libraries doc search) ∧
    (list_libraries doc search).Nodup ∧
    (∀ s : String, s ∈ list_libraries doc search ↔
      ((∃ r ∈ doc.value, r.Id = some s) ∧ s ≠ "" ∧
        ∀ q : String, search = some q → pyContains (pyLower q) (pyLower s) = true)) := by
  have hnames : ∀ s : String,
      s ∈ ((doc.value.filterMap (fun r => r.Id)).filter (fun s => s ≠ "")).dedup ↔
        (∃ r ∈ doc.value, r.Id = some s) ∧ s ≠ "" := by
    intro s
    simp [List.mem_dedup, List.mem_filter, List.mem_filterMap]
  have hnodup : (((doc.value.filterMap (fun r => r.Id)).filter (fun s => s ≠ "")).dedup).Nodup :=
    List.nodup_dedup _
  cases search with
  | none =>
    simp only [list_libraries]
    refine ⟨pySorted_sorted _, pySorted_nodup _ hnodup, ?_⟩
    intro s
    rw [pySorted_mem, hnames s]
    simp
  | some q =>
    simp only [list_libraries]
    by_cases hq : q = ""
    · rw [if_pos hq]
      refine ⟨pySorted_sorted _, pySorted_nodup _ hnodup, ?_⟩
      intro s
      rw [pySorted_mem, hnames s]
      constructor
      · rintro ⟨h1, h2⟩
        refine ⟨h1, h2, fun q' hq' => ?_⟩
        cases hq'
        rw [hq, pyLower_empty]
        exact pyContains_empty (pyLower s)
      · rintro ⟨h1, h2, _⟩
        exact ⟨h1, h2⟩
    · rw [if_neg hq]
      refine ⟨pySorted_sorted _, pySorted_nodup _ (List.Nodup.filter _ hnodup), ?_⟩
      intro s
      rw [pySorted_mem, List.mem_filter, hnames s]
      constructor
      · rintro ⟨⟨h1, h2⟩, h3⟩
        exact ⟨h1, h2, fun q' hq' => by cases hq'; exact h3⟩
      · rintro ⟨h1, h2, h3⟩
        exact ⟨⟨h1, h2⟩, h3 q rfl⟩

/-- C10 witness: a concrete response with a missing id, an empty id and a
duplicate, searched case-insensitively for `"lib"`. -/
theorem C10_list_libraries_spec_witness :
    List.Sorted pyStrLe
      (list_libraries ⟨[⟨some "B.Lib"⟩, ⟨some "a.lib"⟩, ⟨none⟩, ⟨some ""⟩, ⟨some "B.Lib"⟩]⟩
        (some "LIB")) ∧
    (list_libraries ⟨[⟨some "B.Lib"⟩, ⟨some "a.lib"⟩, ⟨none⟩, ⟨some ""⟩, ⟨some "B.Lib"⟩]⟩
      (some "LIB")).Nodup ∧
    (∀ s : String,
      s ∈ list_libraries ⟨[⟨some "B.Lib"⟩, ⟨some "a.lib"⟩, ⟨none⟩, ⟨some ""⟩, ⟨some "B.Lib"⟩]⟩
        (some "LIB") ↔
      ((∃ r ∈ LibrariesDoc.value ⟨[⟨some "B.Lib"⟩, ⟨some "a.lib"⟩, ⟨none⟩, ⟨some ""⟩, ⟨some "B.Lib"⟩]⟩,
          r.Id = some s) ∧ s ≠ "" ∧
        ∀ q : String, (some "LIB" : Option String) = some q →
          pyContains (pyLower q) (pyLower s) = true)) :=
  C10_list_libraries_spec ⟨[⟨some "B.Lib"⟩, ⟨some "a.lib"⟩, ⟨none⟩, ⟨some ""⟩, ⟨some "B.Lib"⟩]⟩
    (some "LIB")

/-- C1 witness: three requested kinds against a stub where `queues` fails
with HTTP 403 and the others succeed. -/
theorem C1_aggregated_fetch_witness :
    ((get_resources ["assets", "queues", "triggers"] 1
        (fun k _ => if k = "queues" then .httpError 403 "forbidden" else .ok [])).map Prod.fst =
      ["assets", "queues", "triggers"]) ∧
    (∀ i : Nat, (get_resources ["assets", "queues", "triggers"] 1
        (fun k _ => if k = "queues" then .httpError 403 "forbidden" else .ok []))[i]? =
      (["assets", "queues", "triggers"] : List String)[i]?.map
        (fun k => (k, toResourceResult
          ((fun k _ => if k = "queues" then FetchOutcome.httpError 403 "forbidden"
            else FetchOutcome.ok []) k (1 : Int))))) ∧
    (∀ records message, ResourceResult.items records ≠ ResourceResult.failure message) :=
  C1_aggregated_fetch ["assets", "queues", "triggers"] 1
    (fun k _ => if k = "queues" then .httpError 403 "forbidden" else .ok [])
